import Mathlib

/-!
Verification of the GreenAI FastAPI application (`src/app.py`) against its
natural-language specification.

The application source is:

  - a module-level conditional: if `os.path.exists("static")` then
    `app.mount("/static", StaticFiles(directory="static", html=True), ...)`;
  - one route: `@app.get("/", response_class=HTMLResponse)` whose handler
    returns the constant string `"<h1>Hello GreenAI</h1>"`;
  - a `__main__` guard that calls `uvicorn.run(app, host="0.0.0.0", port=8000)`.

The embedding keeps the application-level code faithful to `src/app.py`.
The framework pieces (the Starlette router dispatch, the `StaticFiles`
handler and its constructor check) are not part of this repository's
sources, so those are modelled from the specification's description of
them; each such definition is marked `Modelled from the spec:` in its doc
comment.
-/

namespace GreenAI

/-- HTTP methods relevant to the routing behavior under study. -/
inductive Method
  | GET
  | HEAD
  | POST
  | PUT
  | PATCH
  | OPTIONS
  | TRACE
  deriving DecidableEq, Repr

/-- An HTTP request as the application can observe it: method, path,
headers, query parameters and body. -/
structure Request where
  method : Method
  path : String
  headers : List (String × String)
  query : List (String × String)
  body : String
  deriving DecidableEq, Repr

/-- An HTTP response: status code, body, and the value of the
`content-type` header when one is set. -/
structure Response where
  status : Nat
  body : String
  contentType : Option String
  deriving DecidableEq, Repr

/-- What the filesystem holds at the path `"static"` (relative to the
process working directory): nothing, a regular file, or a directory. -/
inductive FsEntry
  | absent
  | file
  | dir
  deriving DecidableEq, Repr

/-- Embedding of `os.path.exists("static")` (src/app.py line 9): true for
any existing entry, whether it is a regular file or a directory. -/
def osPathExists : FsEntry → Bool
  | .absent => false
  | .file => true
  | .dir => true

/-- Modelled from the spec: the `StaticFiles(directory="static", html=True)`
constructor is framework code absent from `src/`; with its default
`check_dir` behavior it raises at construction time when the given path is
not a directory, and succeeds when it is. -/
def staticFilesInit (e : FsEntry) : Except String Unit :=
  if e = .dir then .ok () else .error "Directory 'static' does not exist"

/-- The application object as far as routing is concerned: whether the
`/static` mount was registered at startup. The one route on `/` is always
registered. -/
structure App where
  staticMounted : Bool
  deriving DecidableEq, Repr

/-- Embedding of the module-level startup code of `src/app.py`
(lines 6-14): build the `FastAPI()` app, then, when
`os.path.exists("static")` holds, attempt to construct `StaticFiles` and
mount it at `/static`; a constructor error aborts startup. -/
def buildApp (e : FsEntry) : Except String App :=
  if osPathExists e then
    match staticFilesInit e with
    | .ok _ => .ok { staticMounted := true }
    | .error m => .error m
  else
    .ok { staticMounted := false }

/-- The constant HTML body returned by the root handler
(src/app.py line 14). -/
def helloBody : String := "<h1>Hello GreenAI</h1>"

/-- Embedding of the root handler (src/app.py lines 13-14): over any
program state `σ`, it leaves the state unchanged and returns the constant
string. The Python body is a single `return` of a literal, so this is the
whole of its behavior. -/
def root {σ : Type} (s : σ) : σ × String := (s, helloBody)

/-- Embedding of running the root handler as fallible code: the handler
body performs no computation, so the error branch is unreachable and the
result is always `ok`. -/
def rootRun {σ : Type} (s : σ) : Except String (σ × String) := .ok (root s)

/-- The filesystem as seen at request-handling time: the files below the
`static` directory (keyed by path relative to that directory), plus what
currently sits at the path `"static"` — which may differ from what was
there at startup. -/
structure Fs where
  files : List (String × String)
  staticEntryNow : FsEntry
  deriving Repr

/-- Look up a file by relative path. -/
def lookupFile (files : List (String × String)) (p : String) : Option String :=
  (files.find? (fun kv => kv.1 = p)).map (fun kv => kv.2)

/-- Whether a request path lies under the mount prefix `"/static/"`
(stated over the character list so that it evaluates by reduction). -/
def isUnderStatic (p : String) : Bool := "/static/".data.isPrefixOf p.data

/-- The relative path below the mount for a request path under
`"/static/"`: drop the 8 characters of the mount prefix. -/
def staticRel (p : String) : String := ⟨p.data.drop 8⟩

/-- The candidate directory-index path for a relative path: `index.html`
inside the directory the path denotes. -/
def indexPath (rel : String) : String :=
  if rel.data.getLast? = some '/' ∨ rel = "" then rel ++ "index.html"
  else rel ++ "/index.html"

/-- Modelled from the spec: the `StaticFiles(html=True)` request handler is
framework code absent from `src/`; it serves the named file verbatim when
it exists, falls back to the directory's `index.html` (directory-index
behavior, enabled by `html=True`), and otherwise answers 404 (with the
contents of a top-level `404.html` as body when that file exists). The
content-type of static responses is guessed from the file and is not
modelled. -/
def staticServe (files : List (String × String)) (rel : String) : Response :=
  match lookupFile files rel with
  | some c => { status := 200, body := c, contentType := none }
  | none =>
    match lookupFile files (indexPath rel) with
    | some c => { status := 200, body := c, contentType := none }
    | none =>
      match lookupFile files "404.html" with
      | some c => { status := 404, body := c, contentType := none }
      | none => { status := 404, body := "Not Found", contentType := none }

/-- The `content-type` value set by `HTMLResponse` for the root route. -/
def htmlContentType : String := "text/html; charset=utf-8"

/-- Modelled from the spec: the framework router dispatch, absent from
`src/`. A request whose path lies under the mount prefix is routed to the
static handler when the mount was registered at startup; a request to `/`
is answered by the root handler for GET, by its HEAD counterpart (same
headers, empty body) for HEAD, and with 405 Method Not Allowed otherwise;
every other path is 404 Not Found. Note the dispatch consults only
`a.staticMounted` (fixed at startup) and never `fs.staticEntryNow`, the
current state of the `static` path. An exact request to `/static` (no
trailing slash) is answered by the framework with a redirect and is
outside the modelled scope. -/
def handle (a : App) (fs : Fs) (r : Request) : Response :=
  if a.staticMounted && isUnderStatic r.path then
    staticServe fs.files (staticRel r.path)
  else if r.path = "/" then
    match r.method with
    | .GET => { status := 200, body := (root ()).2, contentType := some htmlContentType }
    | .HEAD => { status := 200, body := "", contentType := some htmlContentType }
    | _ => { status := 405, body := "Method Not Allowed", contentType := some "text/plain; charset=utf-8" }
  else
    { status := 404, body := "Not Found", contentType := some "text/plain; charset=utf-8" }

/-- Embedding of the `__main__` guard (src/app.py lines 16-18): the list of
servers started by importing/running the module. When run directly it
starts one server on host `0.0.0.0`, port `8000`; when imported as a
library it starts none. -/
def mainGuard (runDirectly : Bool) : List (String × Nat) :=
  if runDirectly then [("0.0.0.0", 8000)] else []

/-! ## Helper lemmas -/

/-- The dispatch of a GET request to `/` is the fixed HTML response,
whatever the app configuration, filesystem, headers, query or body. -/
theorem handle_root_get_eq (a : App) (fs : Fs)
    (hs q : List (String × String)) (b : String) :
    handle a fs ⟨.GET, "/", hs, q, b⟩ = ⟨200, helloBody, some htmlContentType⟩ := by
  rcases a with ⟨sm⟩
  cases sm <;> rfl

/-- The dispatch of a HEAD request to `/` is a 200 with empty body and the
HTML content type. -/
theorem handle_root_head_eq (a : App) (fs : Fs)
    (hs q : List (String × String)) (b : String) :
    handle a fs ⟨.HEAD, "/", hs, q, b⟩ = ⟨200, "", some htmlContentType⟩ := by
  rcases a with ⟨sm⟩
  cases sm <;> rfl

/-- A path under the static mount prefix is not the root path. -/
theorem ne_root_of_static (p : String) (hp : isUnderStatic p = true) :
    p ≠ "/" := by
  intro h
  subst h
  exact absurd hp (by decide)

/-! ## Claims -/

/-- C1: every GET request to `/` returns status 200 with body exactly
`<h1>Hello GreenAI</h1>` and a content-type header containing `text/html`,
for every app configuration, filesystem state, headers, query parameters
and body. -/
theorem c1_root_get (a : App) (fs : Fs)
    (hs q : List (String × String)) (b : String) :
    (handle a fs ⟨.GET, "/", hs, q, b⟩).status = 200 ∧
    (handle a fs ⟨.GET, "/", hs, q, b⟩).body = "<h1>Hello GreenAI</h1>" ∧
    ∃ pre post, (handle a fs ⟨.GET, "/", hs, q, b⟩).contentType =
      some (pre ++ "text/html" ++ post) := by
  rw [handle_root_get_eq]
  exact ⟨rfl, rfl, ⟨"", "; charset=utf-8", by decide⟩⟩

/-- C2: for a startup filesystem entry that is not a regular file, the
static mount is registered iff a directory named `static` exists; when it
exists, requests under `/static/` go to the file handler (200 with the
file's contents for existing files, 404 when neither the file nor a
directory index exists); when nothing exists at `static`, every request
under `/static/` is 404. -/
theorem c2_static_mount (e : FsEntry) (he : e ≠ .file)
    (a : App) (ha : buildApp e = .ok a) :
    (a.staticMounted = true ↔ e = .dir) ∧
    (∀ fs r, isUnderStatic r.path = true →
      (e = .absent → (handle a fs r).status = 404) ∧
      (e = .dir →
        handle a fs r = staticServe fs.files (staticRel r.path) ∧
        (∀ c, lookupFile fs.files (staticRel r.path) = some c →
          (handle a fs r).status = 200 ∧ (handle a fs r).body = c) ∧
        (lookupFile fs.files (staticRel r.path) = none →
          lookupFile fs.files (indexPath (staticRel r.path)) = none →
          (handle a fs r).status = 404))) := by
  cases e with
  | file => exact absurd rfl he
  | absent =>
    obtain rfl : App.mk false = a := Except.ok.inj ha
    refine ⟨by decide, ?_⟩
    intro fs r hp
    refine ⟨?_, ?_⟩
    · intro _
      have hroot : r.path ≠ "/" := ne_root_of_static r.path hp
      simp [handle, hroot]
    · intro hd
      cases hd
  | dir =>
    obtain rfl : App.mk true = a := Except.ok.inj ha
    refine ⟨by decide, ?_⟩
    intro fs r hp
    refine ⟨?_, ?_⟩
    · intro hab
      cases hab
    · intro _
      have hserve : handle ⟨true⟩ fs r = staticServe fs.files (staticRel r.path) := by
        simp [handle, hp]
      refine ⟨hserve, ?_, ?_⟩
      · intro c hc
        rw [hserve]
        simp [staticServe, hc]
      · intro h1 h2
        rw [hserve]
        cases h404 : lookupFile fs.files "404.html" <;>
          simp [staticServe, h1, h2, h404]

/-- Witness for C2 at the concrete startup state where `static` is a
directory containing the single file `a.txt`. -/
theorem c2_static_mount_witness :
    (FsEntry.dir ≠ FsEntry.file ∧ buildApp .dir = .ok ⟨true⟩) ∧
    ((App.mk true).staticMounted = true ↔ FsEntry.dir = FsEntry.dir) :=
  ⟨⟨by decide, rfl⟩, (c2_static_mount .dir (by decide) ⟨true⟩ rfl).1⟩

/-- C3: a request to `/` with a method other than GET and HEAD is never
answered 200; its status is 405 or 404 (the modelled router answers 405). -/
theorem c3_other_methods (a : App) (fs : Fs) (m : Method)
    (hg : m ≠ .GET) (hh : m ≠ .HEAD)
    (hs q : List (String × String)) (b : String) :
    (handle a fs ⟨m, "/", hs, q, b⟩).status ≠ 200 ∧
    ((handle a fs ⟨m, "/", hs, q, b⟩).status = 405 ∨
     (handle a fs ⟨m, "/", hs, q, b⟩).status = 404) := by
  have h405 : handle a fs ⟨m, "/", hs, q, b⟩ =
      ⟨405, "Method Not Allowed", some "text/plain; charset=utf-8"⟩ := by
    rcases a with ⟨sm⟩
    cases m <;>
      first
        | exact absurd rfl hg
        | exact absurd rfl hh
        | cases sm <;> rfl
  rw [h405]
  exact ⟨by decide, Or.inl rfl⟩

/-- Witness for C3 at a concrete POST request to `/`. -/
theorem c3_other_methods_witness :
    (Method.POST ≠ Method.GET ∧ Method.POST ≠ Method.HEAD) ∧
    (handle ⟨false⟩ ⟨[], .absent⟩ ⟨.POST, "/", [], [], ""⟩).status ≠ 200 :=
  ⟨⟨by decide, by decide⟩,
   (c3_other_methods ⟨false⟩ ⟨[], .absent⟩ .POST (by decide) (by decide) [] [] "").1⟩

/-- C4: the response to GET `/` depends on nothing but the method and the
path — two GET `/` requests differing in headers, query parameters or
body receive identical responses (status, body and content-type alike). -/
theorem c4_get_root_uniform (a : App) (fs : Fs)
    (hs₁ hs₂ q₁ q₂ : List (String × String)) (b₁ b₂ : String) :
    handle a fs ⟨.GET, "/", hs₁, q₁, b₁⟩ = handle a fs ⟨.GET, "/", hs₂, q₂, b₂⟩ := by
  rw [handle_root_get_eq, handle_root_get_eq]

/-- C5: every HEAD request to `/` is answered 200 with an empty body and
the same content-type header as the GET response. -/
theorem c5_head_root (a : App) (fs : Fs)
    (hs q hs' q' : List (String × String)) (b b' : String) :
    (handle a fs ⟨.HEAD, "/", hs, q, b⟩).status = 200 ∧
    (handle a fs ⟨.HEAD, "/", hs, q, b⟩).body = "" ∧
    (handle a fs ⟨.HEAD, "/", hs, q, b⟩).contentType =
      (handle a fs ⟨.GET, "/", hs', q', b'⟩).contentType := by
  rw [handle_root_head_eq, handle_root_get_eq]
  exact ⟨rfl, rfl, rfl⟩

/-- C6: the existence check happens only at startup — the dispatch of any
request by an app built at startup is unchanged when the `static` entry is
created or deleted afterwards (the request-time state of the `static` path
never influences the response). -/
theorem c6_startup_only (e : FsEntry) (a : App) (_ha : buildApp e = .ok a)
    (files : List (String × String)) (eNow₁ eNow₂ : FsEntry) (r : Request) :
    handle a ⟨files, eNow₁⟩ r = handle a ⟨files, eNow₂⟩ r := rfl

/-- Witness for C6: an app started with a `static` directory answers a
request identically after that directory is deleted. -/
theorem c6_startup_only_witness :
    buildApp .dir = .ok ⟨true⟩ ∧
    handle ⟨true⟩ ⟨[], .dir⟩ ⟨.GET, "/static/x", [], [], ""⟩ =
      handle ⟨true⟩ ⟨[], .absent⟩ ⟨.GET, "/static/x", [], [], ""⟩ :=
  ⟨rfl, c6_startup_only .dir ⟨true⟩ rfl [] .dir .absent ⟨.GET, "/static/x", [], [], ""⟩⟩

/-- C7: with the static mount active, a GET request for a directory path
under `/static/` at which no file exists serves that directory's
`index.html` when present (the `html=True` directory-index behavior). -/
theorem c7_directory_index (a : App) (hm : a.staticMounted = true)
    (files : List (String × String)) (p : String)
    (hp : isUnderStatic p = true)
    (hnofile : lookupFile files (staticRel p) = none)
    (c : String) (hidx : lookupFile files (indexPath (staticRel p)) = some c)
    (eNow : FsEntry) (hs q : List (String × String)) (b : String) :
    (handle a ⟨files, eNow⟩ ⟨.GET, p, hs, q, b⟩).status = 200 ∧
    (handle a ⟨files, eNow⟩ ⟨.GET, p, hs, q, b⟩).body = c := by
  rcases a with ⟨sm⟩
  cases hm
  simp [handle, hp, staticServe, hnofile, hidx]

/-- Witness for C7: GET `/static/` with an `index.html` in the static
directory serves that file. -/
theorem c7_directory_index_witness :
    ((App.mk true).staticMounted = true ∧
     isUnderStatic "/static/" = true ∧
     lookupFile [("index.html", "<p>hi</p>")] (staticRel "/static/") = none ∧
     lookupFile [("index.html", "<p>hi</p>")] (indexPath (staticRel "/static/")) =
       some "<p>hi</p>") ∧
    (handle ⟨true⟩ ⟨[("index.html", "<p>hi</p>")], .dir⟩
        ⟨.GET, "/static/", [], [], ""⟩).status = 200 ∧
    (handle ⟨true⟩ ⟨[("index.html", "<p>hi</p>")], .dir⟩
        ⟨.GET, "/static/", [], [], ""⟩).body = "<p>hi</p>" :=
  ⟨⟨rfl, by decide, by decide, by decide⟩,
   c7_directory_index ⟨true⟩ rfl [("index.html", "<p>hi</p>")] "/static/"
     (by decide) (by decide) "<p>hi</p>" (by decide) .dir [] [] ""⟩

/-- C8: the root handler is pure and total — over any program state it
returns the state unchanged together with the constant string, and its
fallible run always succeeds (the error branch is unreachable). -/
theorem c8_root_pure {σ : Type} (s : σ) :
    (root s).1 = s ∧ (root s).2 = helloBody ∧
    rootRun s = .ok (s, helloBody) :=
  ⟨rfl, rfl, rfl⟩

/-- C9: when run directly the module starts exactly one server, on
`0.0.0.0:8000`; when imported as a library it starts none. -/
theorem c9_main_guard :
    mainGuard true = [("0.0.0.0", 8000)] ∧ mainGuard false = [] :=
  ⟨rfl, rfl⟩

/-- C10: when a regular file (not a directory) named `static` exists at
startup, `os.path.exists` still succeeds, so the mount registration is
attempted and startup fails with the StaticFiles constructor error instead
of starting with the mount skipped. -/
theorem c10_static_is_file :
    osPathExists .file = true ∧
    buildApp .file = .error "Directory 'static' does not exist" :=
  ⟨rfl, rfl⟩

end GreenAI
